import Mathlib

/-!
Verification of the natural-language specification of
`src/logid/backend/hidpp10/ReceiverMonitor.cpp` (logiops) against a shallow
embedding of that file.  The embedding models the pairing state machine, the
device-lifecycle dispatcher, the `ready()` registration logic and the
`waitForDevice` one-shot recovery path as pure Lean functions; external
collaborators (the protocol client's decoders, the consumer hooks) are
passed in as function parameters, exactly as the C++ code receives them
through virtual dispatch and `Receiver` calls.
-/

namespace ReceiverMonitor

/-! ## Protocol constants

Byte offsets of a HID++ frame, from `hidpp::Offset` (`Type` = 0,
`DeviceIndex` = 1, `SubID` = 2). -/

/-- Offset of the report-type byte in a raw HID++ frame. -/
def Offset.TypeByte : Nat := 0

/-- Offset of the device-index byte in a raw HID++ frame. -/
def Offset.DeviceIndex : Nat := 1

/-- Offset of the sub-identifier byte in a raw HID++ frame. -/
def Offset.SubID : Nat := 2

/-- HID++ short report type marker (`hidpp::Report::Type::Short`). -/
def ReportType.Short : Nat := 0x10

/-- HID++ long report type marker (`hidpp::Report::Type::Long`). -/
def ReportType.Long : Nat := 0x11

/-- Modelled from the spec: the numeric sub-identifier constants
(connection, disconnection, device-discovered, passkey-request,
discovery-status, legacy pair-status, modern pair-status) are owned by the
protocol client (`Receiver.h`, not part of the analysed source); the monitor
relies only on their being pairwise distinct. -/
def Receiver.DeviceDisconnection : Nat := 0x40

/-- Modelled from the spec: sub-identifier for a device-connection report. -/
def Receiver.DeviceConnection : Nat := 0x41

/-- Modelled from the spec: sub-identifier for a passkey-request report. -/
def Receiver.PasskeyRequest : Nat := 0x4d

/-- Modelled from the spec: sub-identifier for a device-discovered report. -/
def Receiver.DeviceDiscovered : Nat := 0x4f

/-- Modelled from the spec: sub-identifier for a discovery-status report. -/
def Receiver.DiscoveryStatus : Nat := 0x53

/-- Modelled from the spec: sub-identifier for a legacy pair-status report. -/
def Receiver.PairStatus : Nat := 0x54

/-- Modelled from the spec: sub-identifier for a modern (bolt) pair-status
report. -/
def Receiver.BoltPairStatus : Nat := 0x55

/-! ## Data model -/

/-- A raw, undecoded HID++ frame: the byte vector handed to raw-device event
handlers (`std::vector of uint8_t` in the source).  Reading a byte uses
`List.getD`, matching `report[offset]` on a well-formed frame. -/
def RawReport := List Nat

/-- Byte of a raw frame at a given offset (`report[offset]`). -/
def RawReport.byte (r : RawReport) (off : Nat) : Nat := List.getD r off 0

/-- A decoded HID++ report (`hidpp::Report`): the fields this monitor
consults are the type byte, the sub-identifier and the device index. -/
structure Report where
  type : Nat
  subId : Nat
  deviceIndex : Nat
deriving DecidableEq, Repr

/-- Decoding a raw frame into a `hidpp::Report` preserves the raw bytes;
accessors read them at the fixed offsets. -/
def parseReport (raw : RawReport) : Report :=
  { type := raw.byte Offset.TypeByte,
    subId := raw.byte Offset.SubID,
    deviceIndex := raw.byte Offset.DeviceIndex }

/-- A device-connection event (`hidpp::DeviceConnectionEvent`): the fields
this monitor sets or forwards. -/
structure DeviceConnectionEvent where
  index : Nat
  linkEstablished : Bool
  withPayload : Bool
  fromTimeoutCheck : Bool
deriving DecidableEq, Repr

/-- A device-disconnection event (`hidpp::DeviceDisconnectionEvent`),
handled opaquely by the monitor. -/
structure DeviceDisconnectionEvent where
  index : Nat
deriving DecidableEq, Repr

/-- The in-progress discovery record (`DeviceDiscoveryEvent`).  The monitor
treats it opaquely: it is reset to an empty value, accumulated by the
protocol client's fill function, and forwarded whole; a single payload field
stands for its contents. -/
structure DeviceDiscoveryEvent where
  data : Nat
deriving DecidableEq, Repr, Inhabited

/-- The pairing phase (`ReceiverMonitor::PairState`). -/
inductive PairState
  | NotPairing
  | Discovering
  | FindingPasskey
  | Pairing
deriving DecidableEq, Repr, Fintype

/-- The mutex-guarded pairing state of the monitor: current phase plus the
in-progress discovery record (`_pair_state`, `_discovery_event`). -/
structure PairSM where
  pair_state : PairState
  discovery_event : DeviceDiscoveryEvent
deriving DecidableEq, Repr

/-- Outgoing commands issued to the protocol client. -/
inductive Command
  | startDiscover (timeout : Nat)
  | startPairing (timeout : Nat)
  | stopDiscover
  | stopPairing
  | startBoltPairing (event : DeviceDiscoveryEvent)
deriving DecidableEq, Repr

/-- Invocations of the abstract consumer hooks. -/
inductive HookCall
  | addDeviceCall (event : DeviceConnectionEvent)
  | removeDeviceCall (event : DeviceDisconnectionEvent)
  | pairReadyCall (record : DeviceDiscoveryEvent) (passkey : Nat)
deriving DecidableEq, Repr

/-- An emitted log line; `error` models
`logPrintf(ERROR, "Failed to ... device %d ... on %s: %s", index, path,
what)` as a structured entry carrying the device index, the receiver path
and the failure description. -/
inductive LogEntry
  | error (index : Nat) (path : String) (desc : String)
deriving DecidableEq, Repr

/-! ## Pairing operations (`_startPair`, `_stopPair`) -/

/-- The private pairing entry point `ReceiverMonitor::_startPair`: under the
lock, sets the state to `Discovering` for a bolt receiver or `Pairing` for a
legacy one and clears the discovery record; after releasing the lock issues
`startDiscover` (bolt) or `startPairing` (legacy). -/
def startPairOp (bolt : Bool) (timeout : Nat) (m : PairSM) : PairSM × List Command :=
  let m2 : PairSM :=
    { pair_state := if bolt then .Discovering else .Pairing,
      discovery_event := {data := 0} }
  (m2, if bolt then [.startDiscover timeout] else [.startPairing timeout])

/-- The private pairing exit point `ReceiverMonitor::_stopPair`: under the
lock, records the previous state and resets to `NotPairing`; after releasing
the lock, issues `stopDiscover` if the previous state was `Discovering`,
`stopPairing` if it was `Pairing` or `FindingPasskey`, and nothing
otherwise. -/
def stopPairOp (m : PairSM) : PairSM × List Command :=
  let last_state := m.pair_state
  let m2 : PairSM := {m with pair_state := .NotPairing}
  (m2,
    if last_state = .Discovering then [.stopDiscover]
    else if last_state = .Pairing ∨ last_state = .FindingPasskey then [.stopPairing]
    else [])

/-! ## Decoded-report handlers registered by `ready()` -/

/-- Predicate of the discovery subscription: a long report whose
sub-identifier is `DeviceDiscovered`. -/
def discoverPred (r : Report) : Bool :=
  (r.subId == Receiver.DeviceDiscovered) && (r.type == ReportType.Long)

/-- Callback of the discovery subscription.  `fill` stands for
`Receiver::fillDeviceDiscoveryEvent`, which folds the report into the
record and reports whether the record is now complete.  While `Discovering`,
the record is updated; if it became complete the state moves to
`FindingPasskey` and a `startBoltPairing` command carrying the completed
record is dispatched as a background task. -/
def discoverHandler (fill : DeviceDiscoveryEvent → Report → Bool × DeviceDiscoveryEvent)
    (m : PairSM) (report : Report) : PairSM × List Command :=
  if m.pair_state = .Discovering then
    let fr := fill m.discovery_event report
    if fr.1 then
      ({pair_state := .FindingPasskey, discovery_event := fr.2}, [.startBoltPairing fr.2])
    else
      ({m with discovery_event := fr.2}, [])
  else (m, [])

/-- Predicate of the passkey subscription: a long report whose
sub-identifier is `PasskeyRequest`. -/
def passkeyPred (r : Report) : Bool :=
  (r.subId == Receiver.PasskeyRequest) && (r.type == ReportType.Long)

/-- Callback of the passkey subscription.  `passkeyOf` stands for
`Receiver::passkeyEvent`.  While `FindingPasskey`, decodes the passkey,
moves to `Pairing` and invokes the `pairReady` hook with the current
discovery record and the passkey; in any other state the report is
ignored. -/
def passkeyHandler (passkeyOf : Report → Nat) (m : PairSM) (report : Report) :
    PairSM × List HookCall :=
  if m.pair_state = .FindingPasskey then
    let passkey := passkeyOf report
    ({m with pair_state := .Pairing}, [.pairReadyCall m.discovery_event passkey])
  else (m, [])

/-- Predicate of the pair-status subscription: sub-identifier is
`DiscoveryStatus`, `PairStatus` or `BoltPairStatus`. -/
def pairStatusPred (r : Report) : Bool :=
  (r.subId == Receiver.DiscoveryStatus) || (r.subId == Receiver.PairStatus) ||
    (r.subId == Receiver.BoltPairStatus)

/-- Callback of the pair-status subscription.  The three decoders stand for
`Receiver::discoveryStatusEvent`, `pairStatusEvent` and
`boltPairStatusEvent`, each reduced to the boolean flag the handler reads
(`event.discovering` or `event.pairing`).  A discovery-status report with
`discovering = false` while `Discovering`, or a pair-status report (either
variant) with `pairing = false` while `FindingPasskey` or `Pairing`, resets
the state to `NotPairing`; all other cases change nothing. -/
def pairStatusHandler (discFlag : Report → Bool) (pairFlag : Report → Bool)
    (boltFlag : Report → Bool) (m : PairSM) (report : Report) : PairSM :=
  if report.subId = Receiver.DiscoveryStatus then
    if m.pair_state = .Discovering ∧ discFlag report = false then
      {m with pair_state := .NotPairing}
    else m
  else if report.subId = Receiver.PairStatus then
    if (m.pair_state = .FindingPasskey ∨ m.pair_state = .Pairing) ∧ pairFlag report = false then
      {m with pair_state := .NotPairing}
    else m
  else if report.subId = Receiver.BoltPairStatus then
    if (m.pair_state = .FindingPasskey ∨ m.pair_state = .Pairing) ∧ boltFlag report = false then
      {m with pair_state := .NotPairing}
    else m
  else m

/-! ## Device Lifecycle Dispatcher -/

/-- Predicate of the raw lifecycle subscription: a short or long raw frame
whose sub-identifier byte is `DeviceConnection` or `DeviceDisconnection`. -/
def lifecyclePred (raw : RawReport) : Bool :=
  if raw.byte Offset.TypeByte == ReportType.Short ||
      raw.byte Offset.TypeByte == ReportType.Long then
    let sub_id := raw.byte Offset.SubID
    (sub_id == Receiver.DeviceConnection) || (sub_id == Receiver.DeviceDisconnection)
  else false

/-- Body of the background task dispatched by the lifecycle callback.
`addDevice` and `removeDevice` are the abstract consumer hooks, which may
fail with a description string (modelling a thrown `std::exception`);
`connEvent` and `disEvent` stand for `Receiver::deviceConnectionEvent` and
`deviceDisconnectionEvent`.  On a connection report the task invokes
`addDevice`; on a disconnection report, `removeDevice`; a hook failure is
caught in the task and turned into one error log line carrying the device
index, the receiver path and the failure description.  The task is a total
function: no failure escapes it. -/
def lifecycleTask (addDevice : DeviceConnectionEvent → Except String Unit)
    (removeDevice : DeviceDisconnectionEvent → Except String Unit)
    (connEvent : Report → DeviceConnectionEvent)
    (disEvent : Report → DeviceDisconnectionEvent)
    (path : String) (report : Report) : List HookCall × List LogEntry :=
  if report.subId = Receiver.DeviceConnection then
    match addDevice (connEvent report) with
    | .ok _ => ([.addDeviceCall (connEvent report)], [])
    | .error e => ([.addDeviceCall (connEvent report)], [.error report.deviceIndex path e])
  else if report.subId = Receiver.DeviceDisconnection then
    match removeDevice (disEvent report) with
    | .ok _ => ([.removeDeviceCall (disEvent report)], [])
    | .error e => ([.removeDeviceCall (disEvent report)], [.error report.deviceIndex path e])
  else ([], [])

/-! ## `ready()` registration -/

/-- The four subscription-handle members of the monitor
(`_connect_ev_handler`, `_discover_ev_handler`, `_passkey_ev_handler`,
`_pair_status_handler`).  `none` models an empty `EventHandlerLock`. -/
structure HandlerSlots where
  connect_ev_handler : Option Nat
  discover_ev_handler : Option Nat
  passkey_ev_handler : Option Nat
  pair_status_handler : Option Nat
deriving DecidableEq, Repr

/-- Slots of a freshly constructed monitor: all handles empty. -/
def initSlots : HandlerSlots := ⟨none, none, none, none⟩

/-- The four subscription kinds wired by `ready()`. -/
inductive SubKind
  | lifecycle
  | discovery
  | passkey
  | pairStatus
deriving DecidableEq, Repr, Fintype

/-- The handle slot belonging to a subscription kind. -/
def slotOf (s : HandlerSlots) : SubKind → Option Nat
  | .lifecycle => s.connect_ev_handler
  | .discovery => s.discover_ev_handler
  | .passkey => s.passkey_ev_handler
  | .pairStatus => s.pair_status_handler

/-- Externally observable actions of a `ready()` call. -/
inductive ReadyEffect
  | registerSub (k : SubKind)
  | enumerateCall
deriving DecidableEq, Repr

/-- `ReceiverMonitor::ready`: for each of the four subscription kinds, if
its handle is empty, registers the handler (storing the returned handle) —
the four checks are independent of one another — and finally calls
`enumerate()`.  The returned list records the registrations performed and
the trailing enumerate call, in program order. -/
def readyOp (s : HandlerSlots) : HandlerSlots × List ReadyEffect :=
  ({ connect_ev_handler :=
       if s.connect_ev_handler.isNone then some 0 else s.connect_ev_handler,
     discover_ev_handler :=
       if s.discover_ev_handler.isNone then some 0 else s.discover_ev_handler,
     passkey_ev_handler :=
       if s.passkey_ev_handler.isNone then some 0 else s.passkey_ev_handler,
     pair_status_handler :=
       if s.pair_status_handler.isNone then some 0 else s.pair_status_handler },
   (if s.connect_ev_handler.isNone then [ReadyEffect.registerSub .lifecycle] else []) ++
   (if s.discover_ev_handler.isNone then [ReadyEffect.registerSub .discovery] else []) ++
   (if s.passkey_ev_handler.isNone then [ReadyEffect.registerSub .passkey] else []) ++
   (if s.pair_status_handler.isNone then [ReadyEffect.registerSub .pairStatus] else []) ++
   [ReadyEffect.enumerateCall])

/-! ## `waitForDevice` -/

/-- Predicate of the one-shot subscription installed by
`ReceiverMonitor::waitForDevice`: the device-index byte of the raw frame
equals the target index; no other byte is consulted. -/
def waitPred (index : Nat) (raw : RawReport) : Bool :=
  raw.byte Offset.DeviceIndex == index

/-- The connection event synthesized by the `waitForDevice` callback for a
matching frame: payload-free, link established, marked as coming from the
timeout check. -/
def waitEvent (index : Nat) : DeviceConnectionEvent :=
  { index := index, linkEstablished := true, withPayload := false, fromTimeoutCheck := true }

/-- State of one `waitForDevice(index)` registration: whether the raw
subscription is still registered (`handler_id` not yet cleared), how many
synthesized-connection background tasks are queued but not yet run, and how
many `addDevice` dispatches have happened. -/
structure WaitState where
  registered : Bool
  pending : Nat
  dispatches : Nat
deriving DecidableEq, Repr

/-- State immediately after `waitForDevice` installs its subscription. -/
def waitInit : WaitState := ⟨true, 0, 0⟩

/-- Events of a `waitForDevice` execution trace: a raw frame delivered on
the I/O thread, or the task queue running one queued background task. -/
inductive WaitEv
  | arrive (raw : RawReport)
  | runTask

/-- One step of the `waitForDevice` trace semantics, read off the source:
while the subscription is registered, every matching frame runs the
callback, which queues one background task (`run_task`); running a queued
task first clears `handler_id` (deregistering the subscription) and then
dispatches `addDevice` with the synthesized event.  Frames arriving after
deregistration no longer invoke the callback. -/
def waitStep (index : Nat) (s : WaitState) (e : WaitEv) : WaitState :=
  match e with
  | .arrive raw =>
      if s.registered && waitPred index raw then
        {s with pending := s.pending + 1}
      else s
  | .runTask =>
      match s.pending with
      | 0 => s
      | p + 1 => ⟨false, p, s.dispatches + 1⟩

/-- Run a `waitForDevice` trace from a given state. -/
def runWait (index : Nat) (s : WaitState) : List WaitEv → WaitState
  | [] => s
  | e :: es => runWait index (waitStep index s e) es

/-- Number of frames of a trace that match the target index and arrive
while the subscription is still registered. -/
def matchedWhileRegistered (index : Nat) (s : WaitState) : List WaitEv → Nat
  | [] => 0
  | e :: es =>
      (match e with
       | .arrive raw => if s.registered && waitPred index raw then 1 else 0
       | .runTask => 0) + matchedWhileRegistered index (waitStep index s e) es

/-! ## Trigger-level pairing step and the spec's transition graph -/

/-- The triggers of the pairing state machine, with each external decoding
outcome abstracted into the trigger: `startPairT` carries the receiver
variant, `discoverT` whether the report completed the discovery record,
and the status triggers the decoded `discovering`/`pairing` flag. -/
inductive Trigger
  | startPairT (bolt : Bool)
  | stopPairT
  | discoverT (filled : Bool)
  | passkeyT
  | discoveryStatusT (discovering : Bool)
  | pairStatusT (pairing : Bool)
  | boltPairStatusT (pairing : Bool)
deriving DecidableEq, Repr, Fintype

/-- A dummy long report with a given sub-identifier, used to feed the
handlers when only the decoded outcome (already part of the trigger)
matters. -/
def reportWithSub (sub : Nat) : Report :=
  { type := ReportType.Long, subId := sub, deviceIndex := 0 }

/-- The pairing-state component of one operation or handler invocation,
obtained by running the corresponding source-derived function with the
trigger's decoded outcome plugged in for the external decoder. -/
def stepState (t : Trigger) (s : PairState) : PairState :=
  match t with
  | .startPairT bolt => (startPairOp bolt 0 ⟨s, {data := 0}⟩).1.pair_state
  | .stopPairT => (stopPairOp ⟨s, {data := 0}⟩).1.pair_state
  | .discoverT filled =>
      (discoverHandler (fun e _ => (filled, e)) ⟨s, {data := 0}⟩
        (reportWithSub Receiver.DeviceDiscovered)).1.pair_state
  | .passkeyT =>
      (passkeyHandler (fun _ => 0) ⟨s, {data := 0}⟩
        (reportWithSub Receiver.PasskeyRequest)).1.pair_state
  | .discoveryStatusT b =>
      (pairStatusHandler (fun _ => b) (fun _ => true) (fun _ => true) ⟨s, {data := 0}⟩
        (reportWithSub Receiver.DiscoveryStatus)).pair_state
  | .pairStatusT b =>
      (pairStatusHandler (fun _ => true) (fun _ => b) (fun _ => true) ⟨s, {data := 0}⟩
        (reportWithSub Receiver.PairStatus)).pair_state
  | .boltPairStatusT b =>
      (pairStatusHandler (fun _ => true) (fun _ => true) (fun _ => b) ⟨s, {data := 0}⟩
        (reportWithSub Receiver.BoltPairStatus)).pair_state

/-- Transition graph of spec section 4.2, written from the spec's table (a
spec-side definition, deliberately not derived from the source): it lists
which state changes each trigger is allowed to produce. -/
def specGraphAllows : PairState → Trigger → PairState → Bool
  | .NotPairing, .startPairT true, .Discovering => true
  | .NotPairing, .startPairT false, .Pairing => true
  | .Discovering, .discoverT true, .FindingPasskey => true
  | .Discovering, .discoveryStatusT false, .NotPairing => true
  | .FindingPasskey, .passkeyT, .Pairing => true
  | .FindingPasskey, .pairStatusT false, .NotPairing => true
  | .Pairing, .pairStatusT false, .NotPairing => true
  | .FindingPasskey, .boltPairStatusT false, .NotPairing => true
  | .Pairing, .boltPairStatusT false, .NotPairing => true
  | _, .stopPairT, .NotPairing => true
  | _, _, _ => false

/-- The graph of section 4.2 amended with the transitions `_startPair`
actually performs: it sets the state to `Discovering` (bolt) or `Pairing`
(legacy) from every prior state, not only from `NotPairing`. -/
def amendedGraphAllows (s : PairState) (t : Trigger) (s2 : PairState) : Bool :=
  specGraphAllows s t s2 ||
    (match t with
     | .startPairT bolt => s2 == (if bolt then .Discovering else .Pairing)
     | _ => false)

/-- Whether every state change along a trigger sequence, starting from a
given state, stays on the spec's transition graph. -/
def followsSpecGraphFrom (s : PairState) : List Trigger → Bool
  | [] => true
  | t :: ts =>
      let s2 := stepState t s
      (s2 == s || specGraphAllows s t s2) && followsSpecGraphFrom s2 ts

/-- Whether every state change along a trigger sequence stays on the
amended graph. -/
def followsAmendedGraphFrom (s : PairState) : List Trigger → Bool
  | [] => true
  | t :: ts =>
      let s2 := stepState t s
      (s2 == s || amendedGraphAllows s t s2) && followsAmendedGraphFrom s2 ts

/-! ## Theorems -/

/-- C3: every raw report accepted by the lifecycle predicate yields exactly
one hook invocation in the background task — `addDevice` when the
sub-identifier is a connection, `removeDevice` when it is a disconnection,
never both, never zero, never more than one. -/
theorem lifecycle_dispatch_exactly_one
    (addDevice : DeviceConnectionEvent → Except String Unit)
    (removeDevice : DeviceDisconnectionEvent → Except String Unit)
    (connEvent : Report → DeviceConnectionEvent)
    (disEvent : Report → DeviceDisconnectionEvent)
    (path : String) (raw : RawReport)
    (h : lifecyclePred raw = true) :
    ((parseReport raw).subId = Receiver.DeviceConnection ∧
       (lifecycleTask addDevice removeDevice connEvent disEvent path (parseReport raw)).1 =
         [.addDeviceCall (connEvent (parseReport raw))]) ∨
    ((parseReport raw).subId = Receiver.DeviceDisconnection ∧
       (lifecycleTask addDevice removeDevice connEvent disEvent path (parseReport raw)).1 =
         [.removeDeviceCall (disEvent (parseReport raw))]) := by
  simp only [lifecyclePred] at h
  split at h
  · simp only [Bool.or_eq_true, beq_iff_eq] at h
    have hs : (parseReport raw).subId = RawReport.byte raw Offset.SubID := rfl
    rcases h with h | h
    · left
      refine ⟨hs.trans h, ?_⟩
      simp only [lifecycleTask, hs.trans h, if_pos rfl]
      cases addDevice (connEvent (parseReport raw)) <;> rfl
    · right
      refine ⟨hs.trans h, ?_⟩
      have hne : Receiver.DeviceDisconnection ≠ Receiver.DeviceConnection := by decide
      simp only [lifecycleTask, hs.trans h, if_neg hne, if_pos rfl]
      cases removeDevice (disEvent (parseReport raw)) <;> rfl
  · exact absurd h (by simp)

/-- C3 witness: a concrete short connection report for device 3 produces
exactly the single `addDevice` invocation. -/
theorem lifecycle_dispatch_exactly_one_witness :
    ((parseReport [0x10, 3, 0x41]).subId = Receiver.DeviceConnection ∧
       (lifecycleTask (fun _ => Except.ok ()) (fun _ => Except.ok ())
         (fun r => ⟨r.deviceIndex, true, true, false⟩) (fun r => ⟨r.deviceIndex⟩)
         "/dev/hidraw0" (parseReport [0x10, 3, 0x41])).1 =
         [.addDeviceCall ⟨3, true, true, false⟩]) ∨
    ((parseReport [0x10, 3, 0x41]).subId = Receiver.DeviceDisconnection ∧
       (lifecycleTask (fun _ => Except.ok ()) (fun _ => Except.ok ())
         (fun r => ⟨r.deviceIndex, true, true, false⟩) (fun r => ⟨r.deviceIndex⟩)
         "/dev/hidraw0" (parseReport [0x10, 3, 0x41])).1 =
         [.removeDeviceCall ⟨3⟩]) :=
  lifecycle_dispatch_exactly_one (fun _ => Except.ok ()) (fun _ => Except.ok ())
    (fun r => ⟨r.deviceIndex, true, true, false⟩) (fun r => ⟨r.deviceIndex⟩)
    "/dev/hidraw0" [0x10, 3, 0x41] (by decide)

/-- C4: while `Discovering`, a device-discovered report moves the state to
`FindingPasskey` and dispatches exactly one `startBoltPairing` command
carrying the completed record exactly when the fill function reports the
record complete; an incomplete record leaves the state `Discovering` and
issues no command. -/
theorem discover_handler_spec
    (fill : DeviceDiscoveryEvent → Report → Bool × DeviceDiscoveryEvent)
    (m : PairSM) (report : Report)
    (h : m.pair_state = .Discovering) :
    ((fill m.discovery_event report).1 = true →
       discoverHandler fill m report =
         ({pair_state := .FindingPasskey, discovery_event := (fill m.discovery_event report).2},
          [.startBoltPairing (fill m.discovery_event report).2])) ∧
    ((fill m.discovery_event report).1 = false →
       discoverHandler fill m report =
         ({m with discovery_event := (fill m.discovery_event report).2}, [])) := by
  constructor <;> intro hf <;> simp [discoverHandler, h, hf]

/-- C4 witness: with a fill function that completes the record at once, a
discovery report in state `Discovering` reaches `FindingPasskey` with one
`startBoltPairing` command. -/
theorem discover_handler_spec_witness :
    (true = true →
       discoverHandler (fun e _ => (true, e)) ⟨.Discovering, {data := 5}⟩
           (reportWithSub Receiver.DeviceDiscovered) =
         (⟨.FindingPasskey, {data := 5}⟩, [.startBoltPairing {data := 5}])) ∧
    (true = false →
       discoverHandler (fun e _ => (true, e)) ⟨.Discovering, {data := 5}⟩
           (reportWithSub Receiver.DeviceDiscovered) =
         (⟨.Discovering, {data := 5}⟩, [])) :=
  discover_handler_spec (fun e _ => (true, e)) ⟨.Discovering, {data := 5}⟩
    (reportWithSub Receiver.DeviceDiscovered) rfl

/-- C5: a passkey report in state `FindingPasskey` moves the state to
`Pairing` and invokes `pairReady` exactly once with the discovery record as
captured at transition time and the decoded passkey; in any other state it
changes nothing and invokes nothing. -/
theorem passkey_handler_spec (passkeyOf : Report → Nat) (m : PairSM) (report : Report) :
    (m.pair_state = .FindingPasskey →
       passkeyHandler passkeyOf m report =
         ({m with pair_state := .Pairing},
          [.pairReadyCall m.discovery_event (passkeyOf report)])) ∧
    (m.pair_state ≠ .FindingPasskey →
       passkeyHandler passkeyOf m report = (m, [])) := by
  constructor <;> intro hs <;> simp [passkeyHandler, hs]

/-- C5 witness: a passkey report decoded as 1234 in state `FindingPasskey`
with record 7 yields state `Pairing` and one `pairReady` call carrying that
record and passkey. -/
theorem passkey_handler_spec_witness :
    ((PairState.FindingPasskey = PairState.FindingPasskey →
       passkeyHandler (fun _ => 1234) ⟨.FindingPasskey, {data := 7}⟩
           (reportWithSub Receiver.PasskeyRequest) =
         (⟨.Pairing, {data := 7}⟩, [.pairReadyCall {data := 7} 1234])) ∧
    (PairState.FindingPasskey ≠ PairState.FindingPasskey →
       passkeyHandler (fun _ => 1234) ⟨.FindingPasskey, {data := 7}⟩
           (reportWithSub Receiver.PasskeyRequest) =
         (⟨.FindingPasskey, {data := 7}⟩, []))) :=
  passkey_handler_spec (fun _ => 1234) ⟨.FindingPasskey, {data := 7}⟩
    (reportWithSub Receiver.PasskeyRequest)

/-- C6: `_stopPair` always leaves the state `NotPairing`; it issues
`stopDiscover` exactly when the prior state was `Discovering`, issues
`stopPairing` exactly when the prior state was `FindingPasskey` or
`Pairing`, and issues nothing from `NotPairing`. -/
theorem stop_pair_spec (m : PairSM) :
    (stopPairOp m).1.pair_state = .NotPairing ∧
    ((Command.stopDiscover ∈ (stopPairOp m).2) ↔ m.pair_state = .Discovering) ∧
    ((Command.stopPairing ∈ (stopPairOp m).2) ↔
       (m.pair_state = .FindingPasskey ∨ m.pair_state = .Pairing)) ∧
    (m.pair_state = .NotPairing → (stopPairOp m).2 = []) := by
  obtain ⟨ps, de⟩ := m
  cases ps <;> simp [stopPairOp]

/-- C6 witness: stopping from `Pairing` resets to `NotPairing` and issues
`stopPairing`, not `stopDiscover`. -/
theorem stop_pair_spec_witness :
    (stopPairOp ⟨.Pairing, {data := 0}⟩).1.pair_state = .NotPairing ∧
    ((Command.stopDiscover ∈ (stopPairOp ⟨.Pairing, {data := 0}⟩).2) ↔
       (⟨.Pairing, {data := 0}⟩ : PairSM).pair_state = .Discovering) ∧
    ((Command.stopPairing ∈ (stopPairOp ⟨.Pairing, {data := 0}⟩).2) ↔
       ((⟨.Pairing, {data := 0}⟩ : PairSM).pair_state = .FindingPasskey ∨
        (⟨.Pairing, {data := 0}⟩ : PairSM).pair_state = .Pairing)) ∧
    ((⟨.Pairing, {data := 0}⟩ : PairSM).pair_state = .NotPairing →
       (stopPairOp ⟨.Pairing, {data := 0}⟩).2 = []) :=
  stop_pair_spec ⟨.Pairing, {data := 0}⟩

/-- C7: from `NotPairing`, `_startPair` on a bolt (discovery-based)
receiver reaches `Discovering` with the discovery record reset and issues
`startDiscover`; on a legacy receiver it reaches `Pairing` directly and
issues exactly one `startPairing` command. -/
theorem start_pair_spec (bolt : Bool) (timeout : Nat) (m : PairSM)
    (_h : m.pair_state = .NotPairing) :
    (bolt = true →
       startPairOp bolt timeout m =
         (⟨.Discovering, {data := 0}⟩, [.startDiscover timeout])) ∧
    (bolt = false →
       startPairOp bolt timeout m =
         (⟨.Pairing, {data := 0}⟩, [.startPairing timeout])) := by
  constructor <;> intro hb <;> simp [startPairOp, hb]

/-- C7 witness: from `NotPairing` on a legacy receiver, `_startPair` with
timeout 30 reaches `Pairing` and issues exactly one `startPairing`. -/
theorem start_pair_spec_witness :
    ((false = true →
       startPairOp false 30 ⟨.NotPairing, {data := 9}⟩ =
         (⟨.Discovering, {data := 0}⟩, [.startDiscover 30])) ∧
     (false = false →
       startPairOp false 30 ⟨.NotPairing, {data := 9}⟩ =
         (⟨.Pairing, {data := 0}⟩, [.startPairing 30]))) :=
  start_pair_spec false 30 ⟨.NotPairing, {data := 9}⟩ rfl

/-- C9: a failing `addDevice` or `removeDevice` hook is caught inside the
background task, which returns normally with exactly one error log entry
carrying the device index, the receiver path and the failure description,
alongside the single hook invocation. -/
theorem hook_failure_logged
    (addDevice : DeviceConnectionEvent → Except String Unit)
    (removeDevice : DeviceDisconnectionEvent → Except String Unit)
    (connEvent : Report → DeviceConnectionEvent)
    (disEvent : Report → DeviceDisconnectionEvent)
    (path : String) (report : Report) :
    (∀ e, report.subId = Receiver.DeviceConnection →
       addDevice (connEvent report) = .error e →
       lifecycleTask addDevice removeDevice connEvent disEvent path report =
         ([.addDeviceCall (connEvent report)], [.error report.deviceIndex path e])) ∧
    (∀ e, report.subId = Receiver.DeviceDisconnection →
       removeDevice (disEvent report) = .error e →
       lifecycleTask addDevice removeDevice connEvent disEvent path report =
         ([.removeDeviceCall (disEvent report)], [.error report.deviceIndex path e])) := by
  constructor <;> intro e hsub herr <;>
    simp [lifecycleTask, hsub, herr, Receiver.DeviceConnection, Receiver.DeviceDisconnection]

/-- C9 witness: a connection report for device 2 whose `addDevice` hook
fails with description "boom" produces exactly one error log entry with
index 2, the receiver path and "boom". -/
theorem hook_failure_logged_witness :
    lifecycleTask (fun _ => Except.error "boom") (fun _ => Except.ok ())
        (fun r => ⟨r.deviceIndex, true, true, false⟩) (fun r => ⟨r.deviceIndex⟩)
        "/dev/hidraw1" ⟨0x10, 0x41, 2⟩ =
      ([.addDeviceCall ⟨2, true, true, false⟩],
       [.error 2 "/dev/hidraw1" "boom"]) :=
  (hook_failure_logged (fun _ => Except.error "boom") (fun _ => Except.ok ())
      (fun r => ⟨r.deviceIndex, true, true, false⟩) (fun r => ⟨r.deviceIndex⟩)
      "/dev/hidraw1" ⟨0x10, 0x41, 2⟩).1 "boom" rfl rfl

/-- C10: the `waitForDevice` subscription matches a raw frame exactly when
its device-index byte equals the target — the predicate reads no other
byte, so report type and sub-identifier are irrelevant — and every match
queues one background task dispatching the synthesized
`ConnectionEvent{index, linkEstablished := true, withPayload := false,
fromTimeoutCheck := true}` to the `addDevice` path. -/
theorem wait_for_device_match_spec (index : Nat) (raw : RawReport) :
    (waitPred index raw = true ↔ raw.byte Offset.DeviceIndex = index) ∧
    (∀ other : RawReport, other.byte Offset.DeviceIndex = raw.byte Offset.DeviceIndex →
       waitPred index other = waitPred index raw) ∧
    waitEvent index =
      { index := index, linkEstablished := true, withPayload := false,
        fromTimeoutCheck := true } ∧
    (∀ s : WaitState, s.registered = true → waitPred index raw = true →
       waitStep index s (.arrive raw) = {s with pending := s.pending + 1}) := by
  refine ⟨by simp [waitPred], ?_, rfl, ?_⟩
  · intro other hother
    simp [waitPred, hother]
  · intro s hreg hmatch
    simp [waitStep, hreg, hmatch]

/-- C10 witness: a long disconnection frame for device 4 still matches
`waitForDevice 4`, whose synthesized event is the payload-free
link-established timeout-check connection event. -/
theorem wait_for_device_match_spec_witness :
    (waitPred 4 [0x11, 4, 0x40] = true ↔
       RawReport.byte [0x11, 4, 0x40] Offset.DeviceIndex = 4) ∧
    (∀ other : RawReport,
       other.byte Offset.DeviceIndex = RawReport.byte [0x11, 4, 0x40] Offset.DeviceIndex →
       waitPred 4 other = waitPred 4 [0x11, 4, 0x40]) ∧
    waitEvent 4 =
      { index := 4, linkEstablished := true, withPayload := false,
        fromTimeoutCheck := true } ∧
    (∀ s : WaitState, s.registered = true → waitPred 4 [0x11, 4, 0x40] = true →
       waitStep 4 s (.arrive [0x11, 4, 0x40]) = {s with pending := s.pending + 1}) :=
  wait_for_device_match_spec 4 [0x11, 4, 0x40]

/-- C8: `ready()` is idempotent with respect to registration — calling it
twice from a fresh monitor registers each of the four subscription kinds
exactly once; in general a kind is registered only when its handle slot is
empty; and every call ends with `enumerate()`. -/
theorem ready_idempotent_registration :
    (∀ k : SubKind,
       ((readyOp initSlots).2 ++ (readyOp (readyOp initSlots).1).2).count
         (ReadyEffect.registerSub k) = 1) ∧
    (∀ s : HandlerSlots, (readyOp s).2.getLast? = some ReadyEffect.enumerateCall) ∧
    (∀ (s : HandlerSlots) (k : SubKind), slotOf s k ≠ none →
       ReadyEffect.registerSub k ∉ (readyOp s).2) := by
  refine ⟨by decide, ?_, ?_⟩
  · intro s
    simp only [readyOp]
    rw [List.getLast?_append_cons]
    rfl
  · intro s k h
    obtain ⟨o1, o2, o3, o4⟩ := s
    cases k <;> simp only [slotOf] at h <;>
      simp [readyOp, Option.isNone_iff_eq_none, h]

/-- C8 witness: the first `ready()` call on a fresh monitor ends with an
`enumerate()` call. -/
theorem ready_idempotent_registration_witness :
    (readyOp initSlots).2.getLast? = some ReadyEffect.enumerateCall :=
  ready_idempotent_registration.2.1 initSlots

/-! ### `waitForDevice` dispatch counting (C1) -/

/-- One step of the wait semantics preserves the sum of dispatches and
queued tasks except that a frame matched while registered adds one queued
task. -/
theorem waitStep_sum (index : Nat) (s : WaitState) (e : WaitEv) :
    (waitStep index s e).dispatches + (waitStep index s e).pending =
      s.dispatches + s.pending +
        (match e with
         | .arrive raw => if s.registered && waitPred index raw then 1 else 0
         | .runTask => 0) := by
  obtain ⟨reg, p, d⟩ := s
  cases e with
  | arrive raw =>
      cases reg <;> by_cases hm : waitPred index raw = true <;>
        simp [waitStep, hm] <;> omega
  | runTask =>
      cases p <;> simp [waitStep] <;> omega

/-- Accounting invariant of a whole trace: dispatches plus still-queued
tasks grow exactly by the number of frames matched while registered. -/
theorem runWait_sum (index : Nat) (es : List WaitEv) (s : WaitState) :
    (runWait index s es).dispatches + (runWait index s es).pending =
      s.dispatches + s.pending + matchedWhileRegistered index s es := by
  induction es generalizing s with
  | nil => simp [runWait, matchedWhileRegistered]
  | cons e es ih =>
      have hsum := waitStep_sum index s e
      simp only [runWait, matchedWhileRegistered]
      rw [ih (waitStep index s e)]
      omega

/-- Once a dispatch has happened, the subscription is deregistered and
stays so. -/
theorem runWait_dispatch_unregistered (index : Nat) (es : List WaitEv) (s : WaitState)
    (h : s.dispatches > 0 → s.registered = false) :
    (runWait index s es).dispatches > 0 → (runWait index s es).registered = false := by
  induction es generalizing s with
  | nil => simpa [runWait] using h
  | cons e es ih =>
      refine ih (waitStep index s e) ?_
      intro hpos
      obtain ⟨reg, p, d⟩ := s
      cases e with
      | arrive raw =>
          cases reg with
          | false => simp [waitStep]
          | true =>
              by_cases hm : waitPred index raw = true
              · have hd : 0 < d := by simpa [waitStep, hm] using hpos
                exact absurd (h hd) (by simp)
              · have hd : 0 < d := by simpa [waitStep, hm] using hpos
                exact absurd (h hd) (by simp)
      | runTask =>
          cases p with
          | zero =>
              have hd : 0 < d := by simpa [waitStep] using hpos
              simpa [waitStep] using h hd
          | succ q => simp [waitStep]

/-- C1 counterexample: two raw frames for device 1 arrive before either
queued background task runs; each queues a task, each task dispatches
`addDevice`, so the synthesized connection event is dispatched twice — the
claimed at-most-once bound is false. -/
theorem wait_single_shot_cex :
    ¬ ((runWait 1 waitInit
          [.arrive [0x10, 1, 0x41], .arrive [0x10, 1, 0x41], .runTask, .runTask]).dispatches ≤ 1) := by
  decide

/-- C1 amended: each matching frame that arrives while the one-shot
subscription is still registered queues exactly one background dispatch
(dispatches already performed plus still-queued tasks equal the number of
frames matched while registered), and the first task to run deregisters the
subscription, so once any dispatch has happened no further frame is
matched.  At-most-once therefore holds only when at most one matching frame
precedes the first task run, not in general. -/
theorem wait_single_shot_amended (index : Nat) (es : List WaitEv) :
    ((runWait index waitInit es).dispatches + (runWait index waitInit es).pending =
       matchedWhileRegistered index waitInit es) ∧
    ((runWait index waitInit es).dispatches > 0 →
       (runWait index waitInit es).registered = false) := by
  constructor
  · have := runWait_sum index es waitInit
    simpa [waitInit] using this
  · exact runWait_dispatch_unregistered index es waitInit (by simp [waitInit])

/-- C1 amended witness: on the double-arrival trace, both dispatches are
accounted for by the two frames matched while registered, and the
subscription ends deregistered. -/
theorem wait_single_shot_amended_witness :
    ((runWait 1 waitInit
        [.arrive [0x10, 1, 0x41], .arrive [0x10, 1, 0x41], .runTask, .runTask]).dispatches +
       (runWait 1 waitInit
        [.arrive [0x10, 1, 0x41], .arrive [0x10, 1, 0x41], .runTask, .runTask]).pending =
       matchedWhileRegistered 1 waitInit
        [.arrive [0x10, 1, 0x41], .arrive [0x10, 1, 0x41], .runTask, .runTask]) ∧
    ((runWait 1 waitInit
        [.arrive [0x10, 1, 0x41], .arrive [0x10, 1, 0x41], .runTask, .runTask]).dispatches > 0 →
       (runWait 1 waitInit
        [.arrive [0x10, 1, 0x41], .arrive [0x10, 1, 0x41], .runTask, .runTask]).registered = false) :=
  wait_single_shot_amended 1
    [.arrive [0x10, 1, 0x41], .arrive [0x10, 1, 0x41], .runTask, .runTask]

/-! ### Pairing transition graph (C2) -/

/-- Every single step of the pairing operations either leaves the state
unchanged or follows the amended graph. -/
theorem stepState_amended_ok (s : PairState) (t : Trigger) :
    (stepState t s == s || amendedGraphAllows s t (stepState t s)) = true := by
  revert s t
  decide

/-- C2 counterexample: starting from `NotPairing` on a bolt receiver, the
trigger sequence startPair, record-completing discovery report, startPair
reaches `FindingPasskey` and then moves to `Discovering` — a state change
`_startPair` performs from a non-`NotPairing` state, which the graph of
spec section 4.2 does not contain. -/
theorem pair_graph_cex :
    followsSpecGraphFrom .NotPairing
      [.startPairT true, .discoverT true, .startPairT true] = false := by
  decide

/-- C2 amended: along every trigger sequence from every state, the pairing
state changes only along the graph of section 4.2 augmented with the
`startPair` transitions the code actually performs — `startPair` sets the
state to `Discovering` (bolt) or `Pairing` (legacy) from any prior state,
and no other transitions occur. -/
theorem pair_graph_amended (s : PairState) (es : List Trigger) :
    followsAmendedGraphFrom s es = true := by
  induction es generalizing s with
  | nil => rfl
  | cons t ts ih =>
      simp only [followsAmendedGraphFrom, Bool.and_eq_true]
      exact ⟨stepState_amended_ok s t, ih (stepState t s)⟩

/-- C2 amended witness: the counterexample trace itself stays on the
amended graph. -/
theorem pair_graph_amended_witness :
    followsAmendedGraphFrom .NotPairing
      [.startPairT true, .discoverT true, .startPairT true] = true :=
  pair_graph_amended .NotPairing [.startPairT true, .discoverT true, .startPairT true]

end ReceiverMonitor
